import Mathlib

/-!
Verification of the `ancient-arch` backend's authorization and
qualification-exam core against its specification.

Shallow embedding of the relevant Rust source:
- `src/backend/src/error.rs` (`AppError` taxonomy and HTTP status mapping),
- `src/backend/src/utils/jwt.rs` (`Claims`, `sign_jwt`, `verify_jwt`,
  the `VerifiedUser` extractor),
- `src/backend/src/utils/hash.rs` (`verify_password`),
- `src/backend/src/handlers/qualification.rs`
  (`calculate_score`, `generate_exam`, `submit_exam`),
- `src/backend/src/models/exam_record.rs` and `models/question.rs` (DTOs).

Modelling conventions:
- Rust `HashMap<i64, String>` values are embedded as association lists
  `List (Int × String)`; where a statement needs the hash-map property
  that keys are unique, it takes a `Nodup` hypothesis on the key list.
- `f64` percentage arithmetic is embedded over `ℚ`; every value the score
  computation produces here (quotients of small naturals scaled by 100)
  is exactly representable, and the pass threshold comparison at 60 is
  exact in both models.
- Database effects are made explicit: the question table and the user
  table are passed in as lists, a fallible statement outcome is passed
  in as a `Bool` (`true` = the statement succeeded), and handlers return
  `Except AppError` together with the updated user table.
- The external `jsonwebtoken` and `argon2` crates are embedded
  symbolically: signing pairs the claim payload with a keyed checksum
  recomputed at verification, and the Argon2 primitive is an abstract
  keyed hash; nothing proved below depends on cryptographic properties
  of the real primitives, only on the wrapper logic in `src/`.
-/

namespace AncientArch

/-- `AppError` from `src/error.rs`. -/
inductive AppError where
  | internalServerError (msg : String)
  | badRequest (msg : String)
  | authError (msg : String)
  | notFound (msg : String)
  | conflict (msg : String)
  deriving DecidableEq, Repr

/-- HTTP status mapping of `impl IntoResponse for AppError` in `src/error.rs`. -/
def AppError.statusCode : AppError → Nat
  | .internalServerError _ => 500
  | .badRequest _ => 400
  | .authError _ => 401
  | .notFound _ => 404
  | .conflict _ => 409

/-- JWT claim payload from `src/utils/jwt.rs` (`Claims`). -/
structure Claims where
  sub : String
  role : String
  exp : Nat
  deriving DecidableEq, Repr

/-- A row of the `users` table (fields used by this core). -/
structure UserRow where
  id : Int
  username : String
  password : String
  role : String
  is_verified : Bool
  deriving DecidableEq, Repr

/-- A row of the `questions` table, `Question` in `src/models/question.rs`. -/
structure Question where
  id : Int
  question_type : String
  content : String
  options : List String
  answer : String
  analysis : String
  deriving DecidableEq, Repr

/-- `PublicQuestion` from `src/models/question.rs`: the client-visible
projection, omitting `answer` and `analysis`. -/
structure PublicQuestion where
  id : Int
  question_type : String
  content : String
  options : List String
  deriving DecidableEq, Repr

/-- `SubmitExamRequest` from `src/models/exam_record.rs`. -/
structure SubmitExamRequest where
  exam_token : String
  answers : List (Int × String)
  deriving DecidableEq, Repr

/-- The JSON object `submit_exam` returns on success
(`src/handlers/qualification.rs`, lines 141-147). -/
structure ExamOutcome where
  score : ℚ
  correct_count : Nat
  total_questions : Nat
  passed : Bool
  message : String
  deriving DecidableEq, Repr

/-- `PASSING_SCORE_PERCENTAGE` from `src/config.rs`. -/
def PASSING_SCORE_PERCENTAGE : ℚ := 60

/-- `EXAM_QUESTION_COUNT` from `src/config.rs`. -/
def EXAM_QUESTION_COUNT : Nat := 20

/-- Embedding of Rust `str::parse::<i64>` digit accumulation:
consumes the remaining characters, failing on any non-digit. -/
def parseNatAux : List Char → Nat → Option Nat
  | [], acc => some acc
  | c :: cs, acc =>
    if c.isDigit then parseNatAux cs (acc * 10 + (c.toNat - 48)) else none

/-- Embedding of `claims.sub.parse::<i64>()`: optional sign, then at
least one digit, nothing else (overflow is not modelled; subjects are
produced by `id.to_string()`). -/
def parseI64 (s : String) : Option Int :=
  match s.data with
  | [] => none
  | '-' :: [] => none
  | '-' :: cs => (parseNatAux cs 0).map (fun n => -(n : Int))
  | '+' :: [] => none
  | '+' :: cs => (parseNatAux cs 0).map (fun n => (n : Int))
  | cs => (parseNatAux cs 0).map (fun n => (n : Int))

/-- `claims.sub.parse::<i64>().unwrap_or(0)` as used in
`submit_exam` and in the `VerifiedUser` extractor. -/
def subjectId (c : Claims) : Int := (parseI64 c.sub).getD 0

/-- `calculate_score` from `src/handlers/qualification.rs` lines 25-48:
iterates the user's answers, counting exact (case-sensitive) string
matches against the answer-key map; returns `(correct_count, score)`
with `score = (correct / total) * 100` and an early `(0, 0.0)` return
when the answer-key map is empty. -/
def calculate_score (user_answers db_answers : List (Int × String)) :
    Nat × ℚ :=
  let total_questions := db_answers.length
  if total_questions = 0 then (0, 0)
  else
    let correct_count := user_answers.foldl
      (fun acc p =>
        match List.lookup p.1 db_answers with
        | some correct_ans => if p.2 = correct_ans then acc + 1 else acc
        | none => acc) 0
    (correct_count, ((correct_count : ℚ) / (total_questions : ℚ)) * 100)

/-- `generate_exam` from `src/handlers/qualification.rs` lines 51-90.
The random draw `ORDER BY RANDOM() LIMIT 20` is passed in as the list
of selected rows; the handler maps them to `PublicQuestion` and returns
exactly that list as the response body. -/
def generate_exam (selected : List Question) : List PublicQuestion :=
  selected.map (fun q => ⟨q.id, q.question_type, q.content, q.options⟩)

/-- The answer-key map `submit_exam` builds from
`SELECT id, answer FROM questions WHERE id IN (question_ids)`:
the rows of the question table whose id is among the submitted keys. -/
def dbAnswerMap (questions : List Question) (ids : List Int) :
    List (Int × String) :=
  (questions.filter (fun q => ids.contains q.id)).map
    (fun q => (q.id, q.answer))

/-- `UPDATE users SET is_verified = TRUE WHERE id = $1`
(`src/handlers/qualification.rs` line 132). -/
def markVerified (users : List UserRow) (uid : Int) : List UserRow :=
  users.map (fun u =>
    if u.id = uid then ⟨u.id, u.username, u.password, u.role, true⟩ else u)

/-- The pass decision `submit_exam` reaches for a request, before any
write: score the submitted answers against the fetched answer keys and
compare with the passing threshold (lines 126-127). -/
def examPassed (questions : List Question) (r : SubmitExamRequest) : Bool :=
  let ids := r.answers.map Prod.fst
  decide ((calculate_score r.answers (dbAnswerMap questions ids)).2 ≥
    PASSING_SCORE_PERCENTAGE)

/-- `submit_exam` from `src/handlers/qualification.rs` lines 94-148.
`fetchOk` is the outcome of the answer-key `SELECT`, `updOk` the outcome
of the verification `UPDATE`; the result carries the response body and
the user table after the handler ran. The handler rejects only an empty
answers map, fetches answer keys for the submitted ids, scores, and on a
passing score performs the verification update (propagating its
failure); `r.exam_token` is never read. -/
def submit_exam (questions : List Question) (users : List UserRow)
    (claims : Claims) (r : SubmitExamRequest) (fetchOk updOk : Bool) :
    Except AppError (ExamOutcome × List UserRow) :=
  let question_ids := r.answers.map Prod.fst
  if question_ids.isEmpty then
    .error (.badRequest "No answers submitted")
  else if fetchOk then
    let db_map := dbAnswerMap questions question_ids
    let cs := calculate_score r.answers db_map
    let passed := decide (cs.2 ≥ PASSING_SCORE_PERCENTAGE)
    let user_id := subjectId claims
    if passed then
      if updOk then
        .ok (⟨cs.2, cs.1, db_map.length, true, "Verification successful!"⟩,
          markVerified users user_id)
      else
        .error (.internalServerError "update failed")
    else
      .ok (⟨cs.2, cs.1, db_map.length, false, "Score too low. Try again."⟩,
        users)
  else
    .error (.internalServerError "database error")

/-- One core-visible exam submission event: the authenticated claims,
the request body, and the outcomes of the two database statements. -/
structure SubmitEvent where
  claims : Claims
  req : SubmitExamRequest
  fetchOk : Bool
  updOk : Bool
  deriving DecidableEq, Repr

/-- The user-table transition a submission event causes: the table the
handler returns on success, the unchanged table on any error. -/
def submitStep (questions : List Question) (users : List UserRow)
    (e : SubmitEvent) : List UserRow :=
  match submit_exam questions users e.claims e.req e.fetchOk e.updOk with
  | .ok (_, users') => users'
  | .error _ => users

/-- `uid`'s rows of the table all carry `is_verified = true`. -/
def verifiedIn (users : List UserRow) (uid : Int) : Prop :=
  ∀ u ∈ users, u.id = uid → u.is_verified = true

/-- `SELECT is_verified, role FROM users WHERE id = $1 ... fetch_optional`
from the `VerifiedUser` extractor. -/
def findUser (users : List UserRow) (uid : Int) : Option UserRow :=
  users.find? (fun u => u.id = uid)

/-- Result type of the `VerifiedUser` extractor (`src/utils/jwt.rs`). -/
structure VerifiedUser where
  id : Int
  deriving DecidableEq, Repr

/-- The `VerifiedUser` extractor from `src/utils/jwt.rs` lines 32-65.
`tokenClaims` is the result of `extract_claims_from_header` (header
extraction and token verification); the extractor then re-queries the
user table and passes iff the stored row has `is_verified` or role
`admin`. -/
def verifiedUserGate (users : List UserRow) (tokenClaims : Option Claims) :
    Except AppError VerifiedUser :=
  match tokenClaims with
  | none => .error (.authError "Missing or invalid token")
  | some claims =>
    let user_id := subjectId claims
    match findUser users user_id with
    | none => .error (.notFound "User not found")
    | some u =>
      if u.is_verified || u.role = "admin" then
        .ok ⟨user_id⟩
      else
        .error (.authError
          "You must be a verified contributor to perform this action.")

/-- A checksum of a string, used to build the symbolic keyed signature. -/
def strCode (s : String) : Nat :=
  s.data.foldl (fun a c => a * 331 + c.toNat + 1) 7

/-- Symbolic keyed signature over the serialized claim payload: stands
for the HMAC the `jsonwebtoken` crate computes over header and payload
with the shared secret. -/
def macSig (secret : String) (c : Claims) : Nat :=
  ((strCode secret * 1000003 + strCode c.sub) * 1000003
    + strCode c.role) * 1000003 + c.exp

/-- A signed token: claim payload plus keyed signature (the base64
transport encoding is not modelled; it is invertible). -/
structure Token where
  payload : Claims
  sig : Nat
  deriving DecidableEq, Repr

/-- `encode` of the `jsonwebtoken` crate, symbolically: attach the keyed
signature for the given secret to the payload. -/
def jwtEncode (c : Claims) (secret : String) : Token :=
  ⟨c, macSig secret c⟩

/-- `sign_jwt` from `src/utils/jwt.rs` lines 68-93: build claims with
`sub = id.to_string()`, the given role, and
`exp = now + expiration_seconds`, and encode them with the secret. -/
def sign_jwt (id : Int) (role : String) (secret : String)
    (now expiration_seconds : Nat) : Token :=
  jwtEncode ⟨toString id, role, now + expiration_seconds⟩ secret

/-- `verify_jwt` from `src/utils/jwt.rs` lines 105-114: decode with the
secret; signature mismatch, malformed payload and expiry in the past all
collapse to `AuthError("Invalid token")`. Expiry validation per the
spec's codec contract: reject when `expiry <= now`. -/
def verify_jwt (t : Token) (secret : String) (now : Nat) :
    Except AppError Claims :=
  if t.sig = macSig secret t.payload ∧ now < t.payload.exp then
    .ok t.payload
  else
    .error (.authError "Invalid token")

/-- A stored password digest string: either a well-formed PHC string
carrying a salt and an Argon2 output, or a malformed string that
`PasswordHash::new` rejects. -/
inductive DigestString where
  | wellFormed (salt : Nat) (output : Nat)
  | malformed (raw : String)
  deriving DecidableEq, Repr

/-- `PasswordHash::new` of the `argon2` crate, symbolically: succeeds
exactly on well-formed digests. -/
def parsePasswordHash : DigestString → Option (Nat × Nat)
  | .wellFormed salt output => some (salt, output)
  | .malformed _ => none

/-- The Argon2 primitive, symbolically: an abstract keyed hash of the
password and the salt. -/
def argon2Hash (password : String) (salt : Nat) : Nat :=
  strCode password * 2654435761 + salt

/-- `Argon2::verify_password`, symbolically: recompute the hash with the
digest's salt and compare with the stored output (`Ok` ↦ `true`,
`Err` ↦ `false`, as the wrapper maps it). -/
def argon2VerifyPrim (password : String) (salt output : Nat) : Bool :=
  argon2Hash password salt = output

/-- `verify_password` from `src/utils/hash.rs` lines 25-35: a digest
that fails to parse is an internal error; after a successful parse the
primitive's verdict is returned as a plain boolean. -/
def verify_password (password : String) (d : DigestString) :
    Except AppError Bool :=
  match parsePasswordHash d with
  | none => .error (.internalServerError "invalid password hash")
  | some (salt, output) => .ok (argon2VerifyPrim password salt output)

/-- Concrete question rows for evaluation. -/
def q1 : Question := ⟨1, "choice", "Q1", ["A", "B"], "A", "why1"⟩

def q2 : Question := ⟨2, "choice", "Q2", ["A", "B"], "B", "why2"⟩

def q3 : Question := ⟨3, "choice", "Q3", ["A", "B"], "C", "why3"⟩

/-- A three-question pool: the ids `{1, 2, 3}` play the role of the
assigned question-id set of an issued exam. -/
def examQuestions : List Question := [q1, q2, q3]

/-- A single unverified user with id 7. -/
def demoUsers : List UserRow := [⟨7, "alice", "pw", "user", false⟩]

/-- Login claims of user 7. -/
def demoClaims : Claims := ⟨"7", "user", 9999⟩

/-- `ExamResponse` from `src/models/exam_record.rs` lines 25-31: the
DTO declared for the exam-generation response, carrying the signed exam
token and its time to live. The source declares it but `generate_exam`
never constructs it. -/
structure ExamResponse where
  questions : List PublicQuestion
  exam_token : String
  expires_in : Nat
  deriving DecidableEq, Repr

/-- A five-question pool whose answer key is `"A"` throughout, for the
pass-threshold instance (3 of 5 correct is exactly 60). -/
def fiveQuestions : List Question :=
  [⟨1, "choice", "Q1", ["A", "B"], "A", "w"⟩,
   ⟨2, "choice", "Q2", ["A", "B"], "A", "w"⟩,
   ⟨3, "choice", "Q3", ["A", "B"], "A", "w"⟩,
   ⟨4, "choice", "Q4", ["A", "B"], "A", "w"⟩,
   ⟨5, "choice", "Q5", ["A", "B"], "A", "w"⟩]

/-- Answers hitting exactly 3 of the 5 keys of `fiveQuestions`. -/
def fiveAnswers : List (Int × String) :=
  [(1, "A"), (2, "A"), (3, "A"), (4, "B"), (5, "B")]

/-! ## Helper lemmas -/

/-- In the non-degenerate case, the score component of
`calculate_score` is the correct count over the key count, times 100. -/
theorem calculate_score_snd (u d : List (Int × String))
    (h : d.length ≠ 0) :
    (calculate_score u d).2 =
      ((calculate_score u d).1 : ℚ) / (d.length : ℚ) * 100 := by
  simp [calculate_score, h]

/-- The answer-counting fold of `calculate_score` counts exactly the
submitted pairs whose value equals the stored answer for their key. -/
theorem score_foldl_eq_filter_length (db : List (Int × String)) :
    ∀ (user : List (Int × String)) (n : Nat),
      user.foldl
        (fun acc p =>
          match List.lookup p.1 db with
          | some correct_ans => if p.2 = correct_ans then acc + 1 else acc
          | none => acc) n
      = n + (user.filter
              (fun p => decide (List.lookup p.1 db = some p.2))).length := by
  intro user
  induction user with
  | nil => simp
  | cons p t ih =>
    intro n
    rw [List.foldl_cons, List.filter_cons]
    cases h : List.lookup p.1 db with
    | none => simp [h, ih]
    | some a =>
      by_cases hpa : p.2 = a
      · subst hpa
        simp only [h, if_pos rfl, ih, decide_eq_true_eq, Option.some.injEq]
        simp
        omega
      · simp only [h, if_neg hpa, ih, decide_eq_true_eq, Option.some.injEq]
        simp [Ne.symm hpa]

/-- The pass-and-fetch-succeeded path of `submit_exam`: a non-empty
passing submission reaches the verification update, whose outcome
decides between the success response and the internal error. -/
theorem submit_exam_pass_path (questions : List Question)
    (users : List UserRow) (claims : Claims) (r : SubmitExamRequest)
    (updOk : Bool) (hne : r.answers ≠ [])
    (hp : examPassed questions r = true) :
    submit_exam questions users claims r true updOk =
      if updOk then
        .ok
          (⟨(calculate_score r.answers
                (dbAnswerMap questions (r.answers.map Prod.fst))).2,
            (calculate_score r.answers
                (dbAnswerMap questions (r.answers.map Prod.fst))).1,
            (dbAnswerMap questions (r.answers.map Prod.fst)).length, true,
            "Verification successful!"⟩,
            markVerified users (subjectId claims))
      else .error (.internalServerError "update failed") := by
  have hne' : (r.answers.map Prod.fst).isEmpty = false := by
    cases h : r.answers with
    | nil => exact absurd h hne
    | cons a l => simp [h]
  simp only [examPassed, decide_eq_true_eq] at hp
  simp [submit_exam, hne', hp]

/-- The fail-and-fetch-succeeded path of `submit_exam`: a non-empty
failing submission returns the failure response and leaves the user
table untouched, whatever the update flag. -/
theorem submit_exam_fail_path (questions : List Question)
    (users : List UserRow) (claims : Claims) (r : SubmitExamRequest)
    (updOk : Bool) (hne : r.answers ≠ [])
    (hp : examPassed questions r = false) :
    submit_exam questions users claims r true updOk =
      .ok
        (⟨(calculate_score r.answers
              (dbAnswerMap questions (r.answers.map Prod.fst))).2,
          (calculate_score r.answers
              (dbAnswerMap questions (r.answers.map Prod.fst))).1,
          (dbAnswerMap questions (r.answers.map Prod.fst)).length, false,
          "Score too low. Try again."⟩, users) := by
  have hne' : (r.answers.map Prod.fst).isEmpty = false := by
    cases h : r.answers with
    | nil => exact absurd h hne
    | cons a l => simp [h]
  simp only [examPassed, decide_eq_false_iff_not] at hp
  simp [submit_exam, hne', hp]

/-- Any successful `submit_exam` result relates the returned table to
the reported pass flag: a pass means the table is the marked one (and
the update must have succeeded to get here), a fail means the table is
unchanged. -/
theorem submit_exam_ok_table (questions : List Question)
    (users : List UserRow) (claims : Claims) (r : SubmitExamRequest)
    (f u : Bool) (out : ExamOutcome) (users' : List UserRow)
    (h : submit_exam questions users claims r f u = .ok (out, users')) :
    (out.passed = true → u = true ∧
        users' = markVerified users (subjectId claims))
  ∧ (out.passed = false → users' = users) := by
  unfold submit_exam at h
  by_cases hne : (r.answers.map Prod.fst).isEmpty
  · simp [hne] at h
  · cases f with
    | false => simp [hne] at h
    | true =>
      by_cases hp : (calculate_score r.answers
          (dbAnswerMap questions (r.answers.map Prod.fst))).2 ≥
          PASSING_SCORE_PERCENTAGE
      · cases u with
        | false => simp [hne, hp] at h
        | true =>
          simp only [hne, hp, Bool.false_eq_true, if_false, if_true,
            decide_True, Except.ok.injEq, Prod.mk.injEq, ite_true,
            ite_false, decide_eq_true_eq] at h
          obtain ⟨ho, hu⟩ := h
          subst ho
          subst hu
          exact ⟨fun _ => ⟨rfl, rfl⟩, fun hf => by simp at hf⟩
      · simp only [hne, hp, Bool.false_eq_true, if_false, if_true,
          decide_True, Except.ok.injEq, Prod.mk.injEq, ite_true,
          ite_false, decide_eq_true_eq, decide_eq_true_iff] at h
        obtain ⟨ho, hu⟩ := h
        subst ho
        subst hu
        exact ⟨fun ht => by simp at ht, fun _ => rfl⟩

/-- A submission event either leaves the user table unchanged or marks
the submitting principal verified. -/
theorem submitStep_eq_or (questions : List Question) (users : List UserRow)
    (e : SubmitEvent) :
    submitStep questions users e = users ∨
      submitStep questions users e =
        markVerified users (subjectId e.claims) := by
  unfold submitStep
  cases h : submit_exam questions users e.claims e.req e.fetchOk e.updOk with
  | error _ => exact Or.inl rfl
  | ok p =>
    obtain ⟨out, users'⟩ := p
    have hc := submit_exam_ok_table _ _ _ _ _ _ _ _ h
    cases hp : out.passed with
    | true => exact Or.inr (hc.1 hp).2
    | false => exact Or.inl (hc.2 hp)

/-- `markVerified` never lowers a verification flag. -/
theorem verifiedIn_markVerified (users : List UserRow) (uid v : Int)
    (h : verifiedIn users uid) : verifiedIn (markVerified users v) uid := by
  intro u hu hid
  simp only [markVerified, List.mem_map] at hu
  obtain ⟨w, hw, hwu⟩ := hu
  by_cases hwv : w.id = v
  · rw [if_pos hwv] at hwu
    rw [← hwu]
  · rw [if_neg hwv] at hwu
    exact h u (hwu ▸ hw) hid

/-- After `markVerified users uid`, every row with id `uid` carries
`is_verified = true`. -/
theorem verifiedIn_markVerified_self (users : List UserRow) (uid : Int) :
    verifiedIn (markVerified users uid) uid := by
  intro u hu hid
  simp only [markVerified, List.mem_map] at hu
  obtain ⟨w, hw, hwu⟩ := hu
  by_cases hwv : w.id = uid
  · rw [if_pos hwv] at hwu
    rw [← hwu]
  · rw [if_neg hwv] at hwu
    exact absurd (hwu ▸ hid) hwv

/-- One submission event preserves `verifiedIn`. -/
theorem submitStep_verified_mono (questions : List Question)
    (users : List UserRow) (e : SubmitEvent) (uid : Int)
    (h : verifiedIn users uid) :
    verifiedIn (submitStep questions users e) uid := by
  rcases submitStep_eq_or questions users e with he | he
  · rw [he]; exact h
  · rw [he]; exact verifiedIn_markVerified users uid _ h

/-- Any sequence of submission events preserves `verifiedIn`. -/
theorem submitStep_foldl_verified_mono (questions : List Question)
    (evs : List SubmitEvent) :
    ∀ (users : List UserRow) (uid : Int), verifiedIn users uid →
      verifiedIn (List.foldl (submitStep questions) users evs) uid := by
  induction evs with
  | nil => exact fun users uid h => h
  | cons e t ih =>
    intro users uid h
    rw [List.foldl_cons]
    exact ih _ uid (submitStep_verified_mono questions users e uid h)

/-- The pass decision of the submission in `examQuestions` that answers
only questions 1 and 2 (a strict subset of the pool's id set): both
submitted answers are correct, so the score is 100 and it passes. -/
theorem examPassed_demo_subset :
    examPassed examQuestions ⟨"tok", [(1, "A"), (2, "B")]⟩ = true := by
  have h1 : (calculate_score [(1, "A"), (2, "B")]
      (dbAnswerMap examQuestions [1, 2])).1 = 2 := by decide
  have hlen : (dbAnswerMap examQuestions [1, 2]).length = 2 := by decide
  have h2 : (calculate_score [(1, "A"), (2, "B")]
      (dbAnswerMap examQuestions [1, 2])).2 = 100 := by
    rw [calculate_score_snd _ _ (by rw [hlen]; decide), h1, hlen]
    norm_num
  simp only [examPassed]
  norm_num [h2, PASSING_SCORE_PERCENTAGE]

/-- Looking up `uid` after `markVerified users uid` finds the original
row with its flag raised. -/
theorem findUser_markVerified (users : List UserRow) (uid : Int) :
    findUser (markVerified users uid) uid =
      (findUser users uid).map
        (fun u => ⟨u.id, u.username, u.password, u.role, true⟩) := by
  induction users with
  | nil => rfl
  | cons a t ih =>
    by_cases h : a.id = uid
    · simp [findUser, markVerified, List.find?_cons, h]
    · simp only [findUser, markVerified, List.map_cons] at *
      rw [if_neg h]
      rw [List.find?_cons, List.find?_cons]
      simp only [h, decide_False]
      exact ih

/-! ## Claim theorems -/

/-- C1. The claim says a submission whose key set is a strict subset of
the assigned question-id set fails with `BadRequest("answer all
questions")` before scoring. The code has no such check: with the pool
(assigned set) `{1, 2, 3}`, the submission answering only `{1, 2}` is
scored over the two fetched keys, reported as a 100-point pass, and
even marks the user verified. -/
theorem C1_subset_submission_scored :
    submit_exam examQuestions demoUsers demoClaims
        ⟨"tok", [(1, "A"), (2, "B")]⟩ true true
      = .ok (⟨100, 2, 2, true, "Verification successful!"⟩,
          [⟨7, "alice", "pw", "user", true⟩]) := by
  have h1 : (calculate_score [(1, "A"), (2, "B")]
      (dbAnswerMap examQuestions [1, 2])).1 = 2 := by decide
  have hlen : (dbAnswerMap examQuestions [1, 2]).length = 2 := by decide
  have h2 : (calculate_score [(1, "A"), (2, "B")]
      (dbAnswerMap examQuestions [1, 2])).2 = 100 := by
    rw [calculate_score_snd _ _ (by rw [hlen]; decide), h1, hlen]
    norm_num
  have hm : markVerified demoUsers (subjectId demoClaims) =
      [⟨7, "alice", "pw", "user", true⟩] := by decide
  rw [submit_exam_pass_path examQuestions demoUsers demoClaims _ true
    (by decide) examPassed_demo_subset]
  simp only [List.map_cons, List.map_nil, if_true, ite_true, hm, h1, h2,
    hlen]

/-- C2. The claim says every submission whose `exam_token` fails
verification is rejected with `BadRequest("invalid or expired exam
token")` before scoring. The code never reads `exam_token`: a
submission carrying a garbage token string is scored and succeeds. -/
theorem C2_garbage_token_scored :
    submit_exam examQuestions demoUsers demoClaims
        ⟨"garbage-not-a-signed-token", [(1, "A"), (2, "B"), (3, "C")]⟩
        true true
      = .ok (⟨100, 3, 3, true, "Verification successful!"⟩,
          [⟨7, "alice", "pw", "user", true⟩]) := by
  have h1 : (calculate_score [(1, "A"), (2, "B"), (3, "C")]
      (dbAnswerMap examQuestions [1, 2, 3])).1 = 3 := by decide
  have hlen : (dbAnswerMap examQuestions [1, 2, 3]).length = 3 := by decide
  have h2 : (calculate_score [(1, "A"), (2, "B"), (3, "C")]
      (dbAnswerMap examQuestions [1, 2, 3])).2 = 100 := by
    rw [calculate_score_snd _ _ (by rw [hlen]; decide), h1, hlen]
    norm_num
  have hp : examPassed examQuestions
      ⟨"garbage-not-a-signed-token", [(1, "A"), (2, "B"), (3, "C")]⟩
      = true := by
    simp only [examPassed]
    norm_num [h2, PASSING_SCORE_PERCENTAGE]
  have hm : markVerified demoUsers (subjectId demoClaims) =
      [⟨7, "alice", "pw", "user", true⟩] := by decide
  rw [submit_exam_pass_path examQuestions demoUsers demoClaims _ true
    (by decide) hp]
  simp only [List.map_cons, List.map_nil, if_true, ite_true, hm, h1, h2,
    hlen]

/-- C3. The claim says exam generation returns the public question list
together with a signed exam token and `expires_in = 900`. The code's
response is the bare list of public projections: evaluating
`generate_exam` on a concrete selection yields only the projected
questions; no `ExamResponse` (exam token, TTL) is ever produced. -/
theorem C3_generate_exam_response_is_bare_list :
    generate_exam [q1, q2] =
      [⟨1, "choice", "Q1", ["A", "B"]⟩,
       ⟨2, "choice", "Q2", ["A", "B"]⟩] := rfl

/-- C4. The result of `submit_exam` (response and resulting user table)
depends only on the answers map, never on the `exam_token` field: two
requests with equal answers and arbitrary tokens get identical
results. -/
theorem C4_exam_token_noninterference (questions : List Question)
    (users : List UserRow) (claims : Claims) (r1 r2 : SubmitExamRequest)
    (f u : Bool) (h : r1.answers = r2.answers) :
    submit_exam questions users claims r1 f u =
      submit_exam questions users claims r2 f u := by
  cases r1
  cases r2
  cases h
  rfl

/-- C4 witness. -/
theorem C4_exam_token_noninterference_witness :
    submit_exam examQuestions demoUsers demoClaims
        ⟨"token-one", [(1, "A")]⟩ true true =
      submit_exam examQuestions demoUsers demoClaims
        ⟨"token-two", [(1, "A")]⟩ true true :=
  C4_exam_token_noninterference examQuestions demoUsers demoClaims
    ⟨"token-one", [(1, "A")]⟩ ⟨"token-two", [(1, "A")]⟩ true true rfl

/-- C5. The verification write happens iff the submission passed: on a
passing success the returned table is exactly `markVerified` of the old
one (an idempotent, flag-raising update), on a failing success the
table is unchanged; one submission event never lowers the flag, nor
does any sequence of events; and after a passing submission every row
of the principal's id is verified. -/
theorem C5_monotonic_escalation :
    (∀ (questions : List Question) (users : List UserRow)
        (claims : Claims) (r : SubmitExamRequest) (f u : Bool)
        (out : ExamOutcome) (users' : List UserRow),
        submit_exam questions users claims r f u = .ok (out, users') →
          (out.passed = true →
              users' = markVerified users (subjectId claims))
        ∧ (out.passed = false → users' = users))
  ∧ (∀ (questions : List Question) (users : List UserRow)
        (e : SubmitEvent) (uid : Int), verifiedIn users uid →
        verifiedIn (submitStep questions users e) uid)
  ∧ (∀ (questions : List Question) (evs : List SubmitEvent)
        (users : List UserRow) (uid : Int), verifiedIn users uid →
        verifiedIn (List.foldl (submitStep questions) users evs) uid)
  ∧ (∀ (questions : List Question) (users : List UserRow)
        (claims : Claims) (r : SubmitExamRequest) (f u : Bool)
        (out : ExamOutcome) (users' : List UserRow),
        submit_exam questions users claims r f u = .ok (out, users') →
        out.passed = true → verifiedIn users' (subjectId claims)) := by
  refine ⟨?_, ?_, ?_, ?_⟩
  · intro questions users claims r f u out users' h
    have hc := submit_exam_ok_table questions users claims r f u out users' h
    exact ⟨fun ht => (hc.1 ht).2, hc.2⟩
  · exact fun questions users e uid h =>
      submitStep_verified_mono questions users e uid h
  · exact fun questions evs users uid h =>
      submitStep_foldl_verified_mono questions evs users uid h
  · intro questions users claims r f u out users' h ht
    have hc := submit_exam_ok_table questions users claims r f u out users' h
    rw [(hc.1 ht).2]
    exact verifiedIn_markVerified_self users (subjectId claims)

/-- C5 witness: a verified user stays verified across a further
submission event. -/
theorem C5_monotonic_escalation_witness :
    verifiedIn
      (List.foldl (submitStep examQuestions)
        [⟨7, "alice", "pw", "user", true⟩]
        [⟨demoClaims, ⟨"t", [(1, "B")]⟩, true, true⟩]) 7 :=
  C5_monotonic_escalation.2.2.1 examQuestions
    [⟨demoClaims, ⟨"t", [(1, "B")]⟩, true, true⟩]
    [⟨7, "alice", "pw", "user", true⟩] 7
    (by intro u hu hid; rcases List.mem_singleton.mp hu with rfl; rfl)

/-- C6. A passing grade whose verification update fails propagates as
an internal error (HTTP 500), and any success response reporting
`passed = true` implies the update succeeded: the code never reports a
pass while the storage write failed. -/
theorem C6_failed_write_propagates (questions : List Question)
    (users : List UserRow) (claims : Claims) (r : SubmitExamRequest) :
    (r.answers ≠ [] → examPassed questions r = true →
        submit_exam questions users claims r true false =
          .error (.internalServerError "update failed")
      ∧ (AppError.internalServerError "update failed").statusCode = 500)
  ∧ (∀ (f u : Bool) (out : ExamOutcome) (users' : List UserRow),
        submit_exam questions users claims r f u = .ok (out, users') →
        out.passed = true → u = true) := by
  constructor
  · intro hne hp
    refine ⟨?_, rfl⟩
    rw [submit_exam_pass_path questions users claims r false hne hp]
    simp
  · intro f u out users' h ht
    exact ((submit_exam_ok_table questions users claims r f u out users'
      h).1 ht).1

/-- C6 witness: the concrete passing submission of `examPassed_demo_subset`
with a failed update returns the internal error. -/
theorem C6_failed_write_propagates_witness :
    submit_exam examQuestions demoUsers demoClaims
        ⟨"tok", [(1, "A"), (2, "B")]⟩ true false =
      .error (.internalServerError "update failed") :=
  ((C6_failed_write_propagates examQuestions demoUsers demoClaims
      ⟨"tok", [(1, "A"), (2, "B")]⟩).1
    (by decide) examPassed_demo_subset).1

/-- C7. Scoring: an empty answer-key map yields `(0, 0)` and a failing
score with no division; otherwise the correct count is the number of
exact (case-sensitive) matches of submitted answers against stored
answers and the score is `100 * correct / total` over `total =`
key-map length; and the inclusive threshold is witnessed through the
code's own pass decision on the 3-of-5 instance, which scores exactly
60 and passes. -/
theorem C7_scoring_spec (user db : List (Int × String)) :
    (db.length = 0 →
        calculate_score user db = (0, 0)
      ∧ ¬((calculate_score user db).2 ≥ PASSING_SCORE_PERCENTAGE))
  ∧ (db.length ≠ 0 →
        (calculate_score user db).1 =
          (user.filter
            (fun p => decide (List.lookup p.1 db = some p.2))).length
      ∧ (calculate_score user db).2 =
          100 * ((calculate_score user db).1 : ℚ) / (db.length : ℚ))
  ∧ (calculate_score fiveAnswers
        (dbAnswerMap fiveQuestions (fiveAnswers.map Prod.fst)) = (3, 60)
    ∧ (60 : ℚ) ≥ PASSING_SCORE_PERCENTAGE
    ∧ examPassed fiveQuestions ⟨"tok", fiveAnswers⟩ = true) := by
  refine ⟨?_, ?_, ?_, ?_, ?_⟩
  · intro h
    rw [List.length_eq_zero] at h
    subst h
    refine ⟨by simp [calculate_score], ?_⟩
    simp [calculate_score, PASSING_SCORE_PERCENTAGE]
  · intro h
    constructor
    · simp only [calculate_score, h, if_neg h]
      simpa using score_foldl_eq_filter_length db user 0
    · rw [calculate_score_snd user db h]
      ring
  · have e1 : (calculate_score fiveAnswers
        (dbAnswerMap fiveQuestions (fiveAnswers.map Prod.fst))).1 = 3 := by
      decide
    have hlen : (dbAnswerMap fiveQuestions
        (fiveAnswers.map Prod.fst)).length = 5 := by decide
    have e2 : (calculate_score fiveAnswers
        (dbAnswerMap fiveQuestions (fiveAnswers.map Prod.fst))).2 = 60 := by
      rw [calculate_score_snd _ _ (by rw [hlen]; decide), e1, hlen]
      norm_num
    exact Prod.ext_iff.mpr ⟨e1, e2⟩
  · norm_num [PASSING_SCORE_PERCENTAGE]
  · have e1 : (calculate_score fiveAnswers
        (dbAnswerMap fiveQuestions (fiveAnswers.map Prod.fst))).1 = 3 := by
      decide
    have hlen : (dbAnswerMap fiveQuestions
        (fiveAnswers.map Prod.fst)).length = 5 := by decide
    have e2 : (calculate_score fiveAnswers
        (dbAnswerMap fiveQuestions (fiveAnswers.map Prod.fst))).2 = 60 := by
      rw [calculate_score_snd _ _ (by rw [hlen]; decide), e1, hlen]
      norm_num
    simp only [examPassed]
    norm_num [e2, PASSING_SCORE_PERCENTAGE]

/-- C7 witness. -/
theorem C7_scoring_spec_witness :
    calculate_score [(1, "A")] [] = (0, 0)
  ∧ (calculate_score [(1, "A")] [(1, "A"), (2, "B")]).2 =
      100 * ((calculate_score [(1, "A")] [(1, "A"), (2, "B")]).1 : ℚ) /
        (([(1, "A"), (2, "B")] : List (Int × String)).length : ℚ) :=
  ⟨((C7_scoring_spec [(1, "A")] []).1 rfl).1,
    ((C7_scoring_spec [(1, "A")] [(1, "A"), (2, "B")]).2.1
      (by decide)).2⟩

/-- C8. The Verified-Contributor gate decides from the stored row: with
the principal's row found, it passes iff the row is verified or has the
admin role, otherwise failing with the Unauthorized (401) "must be a
verified contributor" error; the decision ignores every claim field but
the subject; and once storage marks the principal verified, the same
old token is accepted — no re-login needed. -/
theorem C8_verified_gate_recheck :
    (∀ (users : List UserRow) (c : Claims) (u : UserRow),
        findUser users (subjectId c) = some u →
        ((u.is_verified = true ∨ u.role = "admin") →
            verifiedUserGate users (some c) = .ok ⟨subjectId c⟩)
      ∧ (u.is_verified = false → u.role ≠ "admin" →
            verifiedUserGate users (some c) =
              .error (.authError
                "You must be a verified contributor to perform this action.")
          ∧ (AppError.authError
              "You must be a verified contributor to perform this action.").statusCode
              = 401))
  ∧ (∀ (users : List UserRow) (c1 c2 : Claims), c1.sub = c2.sub →
        verifiedUserGate users (some c1) = verifiedUserGate users (some c2))
  ∧ (∀ (users : List UserRow) (c : Claims) (u : UserRow),
        findUser users (subjectId c) = some u →
        verifiedUserGate (markVerified users (subjectId c)) (some c) =
          .ok ⟨subjectId c⟩) := by
  refine ⟨?_, ?_, ?_⟩
  · intro users c u hf
    constructor
    · intro hok
      rcases hok with h | h <;> simp [verifiedUserGate, hf, h]
    · intro hv hr
      exact ⟨by simp [verifiedUserGate, hf, hv, hr], rfl⟩
  · intro users c1 c2 h
    have hs : subjectId c1 = subjectId c2 := by
      unfold subjectId
      rw [h]
    simp only [verifiedUserGate, hs]
  · intro users c u hf
    simp [verifiedUserGate, findUser_markVerified, hf]

/-- C8 witness: the gate admits a verified non-admin user. -/
theorem C8_verified_gate_recheck_witness :
    verifiedUserGate [⟨7, "alice", "pw", "user", true⟩]
      (some demoClaims) = .ok ⟨7⟩ := by
  have h := (C8_verified_gate_recheck.1 [⟨7, "alice", "pw", "user", true⟩]
      demoClaims ⟨7, "alice", "pw", "user", true⟩ (by decide)).1
    (Or.inl rfl)
  rw [h]
  have hs : subjectId demoClaims = 7 := by decide
  rw [hs]

/-- C9. Round trip of the token codec: signing a claim set (subject id
and role, expiry `now + ttl`) and verifying with the same secret at any
time strictly before the expiry succeeds and returns exactly the signed
claim set. -/
theorem C9_token_roundtrip (id : Int) (role secret : String)
    (now expiration_seconds verifyNow : Nat)
    (h : verifyNow < now + expiration_seconds) :
    verify_jwt (sign_jwt id role secret now expiration_seconds) secret
        verifyNow
      = .ok ⟨toString id, role, now + expiration_seconds⟩ := by
  simp [verify_jwt, sign_jwt, jwtEncode, h]

/-- C9 witness. -/
theorem C9_token_roundtrip_witness :
    verify_jwt (sign_jwt 7 "user" "secret" 100 900) "secret" 500
      = .ok ⟨toString (7 : Int), "user", 1000⟩ :=
  C9_token_roundtrip 7 "user" "secret" 100 900 500 (by decide)

/-- C10. Password verification is total and two-channelled: it always
returns either a boolean verdict or an internal error; a malformed
digest is an internal error, never the boolean `false`; a well-formed
digest yields `false` exactly on mismatch and `true` exactly on
match. -/
theorem C10_verify_password_spec (password : String) (d : DigestString) :
    ((∃ b, verify_password password d = .ok b)
      ∨ (∃ m, verify_password password d = .error (.internalServerError m)))
  ∧ (∀ raw, d = .malformed raw →
        verify_password password d =
          .error (.internalServerError "invalid password hash")
      ∧ ∀ b, verify_password password d ≠ .ok b)
  ∧ (∀ salt output, d = .wellFormed salt output →
        (argon2Hash password salt ≠ output →
            verify_password password d = .ok false)
      ∧ (argon2Hash password salt = output →
            verify_password password d = .ok true)) := by
  cases d with
  | malformed raw =>
    refine ⟨Or.inr ⟨_, rfl⟩, ?_, ?_⟩
    · intro raw' _
      exact ⟨rfl, fun b hb => by
        simp [verify_password, parsePasswordHash] at hb⟩
    · intro salt output h
      simp at h
  | wellFormed salt output =>
    refine ⟨Or.inl ⟨_, rfl⟩, ?_, ?_⟩
    · intro raw h
      simp at h
    · intro s o h
      obtain ⟨hs, ho⟩ : salt = s ∧ output = o := by
        injection h with h1 h2
        exact ⟨h1, h2⟩
      subst hs
      subst ho
      constructor
      · intro hne
        simp [verify_password, parsePasswordHash, argon2VerifyPrim, hne]
      · intro he
        simp [verify_password, parsePasswordHash, argon2VerifyPrim, he]

/-- C10 witness: a malformed digest surfaces as the internal error. -/
theorem C10_verify_password_spec_witness :
    verify_password "hunter2" (.malformed "not-a-phc-string") =
      .error (.internalServerError "invalid password hash") :=
  ((C10_verify_password_spec "hunter2"
      (.malformed "not-a-phc-string")).2.1 "not-a-phc-string" rfl).1

end AncientArch
